import Mathlib

/-!
Shallow embedding of the CARLA Lidar scan engine
(`Unreal/CarlaUE4/Plugins/Carla/Source/Carla/Sensor/Lidar.cpp`).

Numeric convention: engine `float` arithmetic is modelled over `ℚ` (exact
rational arithmetic).  The one place where IEEE-754 non-finite values are
semantically relevant — `ALidar::CreateLasers` divides by
`static_cast<float>(NumberOfLasers - 1)`, which is `0.0f` when
`NumberOfLasers == 1` — is modelled by the tagged type `FVal` carrying
finite rationals, signed infinities and NaN, with the IEEE rules for the
operations `CreateLasers` performs (subtraction, multiplication, division).
Negative zero is not modelled: every denominator in this code is the cast
of an unsigned integer, hence `+0.0f`.
-/

namespace CarlaLidar

/-- Modelled from the spec: the semantic label enum `ECityObjectLabel`
(`Game/Tagger.h` is not under `src/`; the spec's Semantic Tagger returns a
class label such as vehicle, pedestrian, road, or none). -/
inductive ECityObjectLabel where
| none
| building
| fence
| other
| pedestrian
| pole
| roadLine
| road
| sidewalk
| vegetation
| vehicle
| wall
| trafficSign
deriving DecidableEq

/-- An IEEE-style scalar: a finite rational, a signed infinity
(`inf true` = +∞, `inf false` = −∞) or NaN. -/
inductive FVal where
| fin (q : ℚ)
| inf (pos : Bool)
| nan
deriving DecidableEq

/-- IEEE subtraction on `FVal` (finite parts exact). -/
def FVal.sub : FVal → FVal → FVal
| nan, _ => nan
| _, nan => nan
| fin a, fin b => fin (a - b)
| fin _, inf s => inf (!s)
| inf s, fin _ => inf s
| inf s, inf t => if s = t then nan else inf s

/-- IEEE multiplication on `FVal` (finite parts exact); `0 * ±∞ = NaN`. -/
def FVal.mul : FVal → FVal → FVal
| nan, _ => nan
| _, nan => nan
| fin a, fin b => fin (a * b)
| fin a, inf s => if a = 0 then nan else if 0 < a then inf s else inf (!s)
| inf s, fin b => if b = 0 then nan else if 0 < b then inf s else inf (!s)
| inf s, inf t => inf (s = t)

/-- IEEE division on `FVal` (finite parts exact); division by (positive)
zero gives a signed infinity, `0/0 = NaN`, `±∞/±∞ = NaN`, `a/±∞ = 0`. -/
def FVal.div : FVal → FVal → FVal
| nan, _ => nan
| _, nan => nan
| fin a, fin b =>
    if b = 0 then (if a = 0 then nan else if 0 < a then inf true else inf false)
    else fin (a / b)
| fin _, inf _ => fin 0
| inf s, fin b => if 0 ≤ b then inf s else inf (!s)
| inf _, inf _ => nan

/-- The Lidar configuration `ULidarDescription` as read by `Lidar.cpp`
(`Channels`, `UpperFovLimit`, `LowerFovLimit`, `Range`, `PointsPerSecond`,
`RotationFrequency`, `ShowDebugPoints`).  `Channels` and `PointsPerSecond`
are unsigned integers in the engine, the rest are floats. -/
structure LidarDescription where
channels : ℕ
upperFovLimit : ℚ
lowerFovLimit : ℚ
range : ℚ
pointsPerSecond : ℕ
rotationFrequency : ℚ
showDebugPoints : Bool
deriving DecidableEq

/-- `ALidar::CreateLasers` body: `DeltaAngle = (UpperFovLimit -
LowerFovLimit) / float(NumberOfLasers - 1)`; entry `i` is
`UpperFovLimit - float(i) * DeltaAngle`.  `NumberOfLasers` is unsigned, so
`NumberOfLasers - 1` is natural subtraction; the division is float
division, hence the `FVal` arithmetic.  (The `check(NumberOfLasers > 0u)`
guard lives in `lidarSet` below, the caller's entry path.) -/
def createLasers (numberOfLasers : ℕ) (upperFovLimit lowerFovLimit : ℚ) : List FVal :=
(List.range numberOfLasers).map (fun (i : ℕ) =>
  FVal.sub (FVal.fin upperFovLimit)
    (FVal.mul (FVal.fin (i : ℚ))
      (FVal.div (FVal.fin (upperFovLimit - lowerFovLimit))
        (FVal.fin ((numberOfLasers - 1 : ℕ) : ℚ)))))

/-- A table is strictly decreasing when every pair of consecutive finite
entries decreases. -/
def StrictlyDecreasingF (l : List FVal) : Prop :=
∀ i : ℕ, ∀ x y : ℚ, l[i]? = some (FVal.fin x) → l[i + 1]? = some (FVal.fin y) → y < x

/-- A table is evenly spaced with step `step` when every pair of
consecutive finite entries differs by `step`. -/
def EvenlySpacedF (step : ℚ) (l : List FVal) : Prop :=
∀ i : ℕ, ∀ x y : ℚ, l[i]? = some (FVal.fin x) → l[i + 1]? = some (FVal.fin y) → x - y = step

/-- UE `FMath::RoundHalfFromZero(F)`: `F >= 0 ? Floor(F + 0.5) : Ceil(F - 0.5)`. -/
def roundHalfFromZero (x : ℚ) : ℤ :=
if 0 ≤ x then ⌊x + 1 / 2⌋ else ⌈x - 1 / 2⌉

/-- The spec's `round_half_away_from_zero`: `sign(x) * floor(|x| + 1/2)`,
written out per sign.  Stated from the spec's words, to be compared with
the source's `roundHalfFromZero`. -/
def roundHalfAwayFromZeroSpec (x : ℚ) : ℤ :=
if 0 ≤ x then ⌊x + 1 / 2⌋ else -⌊-x + 1 / 2⌋

/-- C truncation toward zero, as used by `std::fmod`. -/
def truncQ (x : ℚ) : ℤ :=
if 0 ≤ x then ⌊x⌋ else ⌈x⌉

/-- `std::fmod x y = x - y * trunc(x / y)` (result has the sign of `x`). -/
def fmodQ (x y : ℚ) : ℚ :=
x - y * (truncQ (x / y) : ℚ)

/-- Mathematical mod into `[0, y)`; the spec's `(… ) mod 360`.  Stated from
the spec's words, to be compared with the source's `fmodQ`. -/
def qmodSpec (x y : ℚ) : ℚ :=
x - y * (⌊x / y⌋ : ℚ)

/-- A 3-vector of engine floats. -/
abbrev Vec3 : Type := ℚ × ℚ × ℚ

/-- Componentwise vector subtraction (`FVector` operator-). -/
def vsub (a b : Vec3) : Vec3 :=
(a.1 - b.1, a.2.1 - b.2.1, a.2.2 - b.2.2)

/-- The data `ShootLaser` extracts from a blocking hit: the impact point,
the struck component's semantic tag (`ATagger::GetTagOfTaggedComponent`)
and the struck actor's tag list (`ATagger::GetTagsOfTaggedActor`). -/
structure HitInfo where
impactPoint : Vec3
componentTag : ECityObjectLabel
actorTags : List ECityObjectLabel
deriving DecidableEq

/-- A measured point: local position plus semantic label
(the `FVector4` `XYZL` with `W = CastEnum(tag)`). -/
structure Point where
xyz : Vec3
label : ECityObjectLabel
deriving DecidableEq

/-- `FLidarMeasurement` as used by `Lidar.cpp`: the horizontal angle, the
frame number, and the point buffer (`WritePoint` appends `(channel, point)`
in write order; `Reset` clears it). -/
structure FLidarMeasurement where
horizontalAngle : ℚ
frameNumber : ℕ
points : List (ℕ × Point)
deriving DecidableEq

/-- Modelled from the spec: the `FLidarMeasurement(GetId(), Channels)`
constructor (`Sensor/LidarMeasurement.h` is not under `src/`); per the
spec, a fresh measurement has `horizontalAngle` and `frameNumber` at their
initial values and an empty point buffer. -/
def FLidarMeasurement.initial : FLidarMeasurement :=
{ horizontalAngle := 0, frameNumber := 0, points := [] }

/-- The engine-side collaborators of one tick, abstracted:
`world c h` is the result of the line trace of channel `c` at horizontal
angle `h` (`LaserAngles[c]` lookup, rotator composition and
`LineTraceSingleByChannel` collapsed into one query, per the spec's
World/Physics Query);  `rotZ θ v` is
`UKismetMathLibrary::RotateAngleAxis(v, θ, (0,0,1))`;  `bodyLoc`/`bodyYaw`
are the sensor pose;  `gFrameCounter` is the host frame counter. -/
structure ScanContext where
world : ℕ → ℚ → Option HitInfo
rotZ : ℚ → Vec3 → Vec3
bodyLoc : Vec3
bodyYaw : ℚ
gFrameCounter : ℕ

/-- The `for (auto t : tags) { if (t != None) { tag = t; break } }` loop of
`ShootLaser`: first non-none tag, else none. -/
def firstNonNone : List ECityObjectLabel → ECityObjectLabel
| [] => ECityObjectLabel.none
| t :: ts => if t ≠ ECityObjectLabel.none then t else firstNonNone ts

/-- The hit branch of `ShootLaser`: `XYZ = RotateAngleAxis(BodyLoc -
ImpactPoint, -BodyYaw + 90, up)`; label = component tag, overridden by the
first non-none actor tag when the component tag is none. -/
def pointOfHit (ctx : ScanContext) (hitInfo : HitInfo) : Point :=
{ xyz := ctx.rotZ (-ctx.bodyYaw + 90) (vsub ctx.bodyLoc hitInfo.impactPoint),
  label :=
    if hitInfo.componentTag = ECityObjectLabel.none then firstNonNone hitInfo.actorTags
    else hitInfo.componentTag }

/-- `ALidar::ShootLaser(Channel, HorizontalAngle, XYZL)`: `some point` on a
blocking hit, `none` on a miss. -/
def shootLaser (ctx : ScanContext) (channel : ℕ) (horizontalAngle : ℚ) : Option Point :=
(ctx.world channel horizontalAngle).map (pointOfHit ctx)

/-- `PointsToScanWithOneLaser = FMath::RoundHalfFromZero(PointsPerSecond *
DeltaTime / float(ChannelCount))`.  Modelled as the exact integer value
(the source stores it in a `uint32`; converting a negative float to
`uint32` is undefined behaviour, so the mathematical value is kept and the
source's `<= 0` early-out test is applied to it). -/
def pointsToScanWithOneLaser (description : LidarDescription) (deltaTime : ℚ) : ℤ :=
roundHalfFromZero
  ((description.pointsPerSecond : ℚ) * deltaTime / (description.channels : ℚ))

/-- The double sweep loop of `ReadPoints`: for each channel and sample
index, shoot; `WritePoint(Channel, Point)` only on a hit. -/
def sweepPoints (ctx : ScanContext) (channelCount n : ℕ) (cur step : ℚ) :
    List (ℕ × Point) :=
(List.range channelCount).flatMap (fun (c : ℕ) =>
  (List.range n).filterMap (fun (i : ℕ) =>
    (shootLaser ctx c (cur + step * (i : ℚ))).map (fun p => (c, p))))

/-- `ALidar::ReadPoints(DeltaTime)`: returns the measurement after the
tick and whether the no-points warning was logged.  When the budget is
`<= 0` it logs and returns with the measurement untouched; otherwise it
resets the buffer, sweeps, and stores `fmod(Current + AngleDistanceOfTick,
360)` and `GFrameCounter`. -/
def readPoints (description : LidarDescription) (ctx : ScanContext)
    (m : FLidarMeasurement) (deltaTime : ℚ) : FLidarMeasurement × Bool :=
if pointsToScanWithOneLaser description deltaTime ≤ 0 then (m, true)
else
  (let n := (pointsToScanWithOneLaser description deltaTime).toNat
   let cur := m.horizontalAngle
   let angleDistanceOfTick := description.rotationFrequency * 360 * deltaTime
   ({ horizontalAngle := fmodQ (cur + angleDistanceOfTick) 360,
      frameNumber := ctx.gFrameCounter,
      points := sweepPoints ctx description.channels n cur (angleDistanceOfTick / (n : ℚ)) },
   false))

/-- `ALidar::Tick(DeltaTime)`: `ReadPoints` then
`WriteSensorData(LidarMeasurement.GetView())` — the retained measurement's
buffer is handed to the sink unconditionally. -/
def tick (description : LidarDescription) (ctx : ScanContext)
    (m : FLidarMeasurement) (deltaTime : ℚ) : FLidarMeasurement × List (ℕ × Point) :=
((readPoints description ctx m deltaTime).1,
 (readPoints description ctx m deltaTime).1.points)

/-- The sensor state `ALidar` owns: the stored description (none before
`Set`), the laser angle table and the measurement. -/
structure LidarState where
description : Option LidarDescription
laserAngles : List FVal
measurement : FLidarMeasurement

/-- `ALidar::Set(LidarDescription)`: stores the description, constructs a
fresh `FLidarMeasurement`, and runs `CreateLasers`, whose
`check(NumberOfLasers > 0u)` assertion halts (modelled as `none`) when
`Channels == 0`.  No other field of the description is validated. -/
def lidarSet (description : LidarDescription) (_st : LidarState) : Option LidarState :=
if 0 < description.channels then
  some { description := some description,
         laserAngles :=
           createLasers description.channels description.upperFovLimit
             description.lowerFovLimit,
         measurement := FLidarMeasurement.initial }
else none

/-- A concrete tick context whose every ray cast misses. -/
def ctxNone : ScanContext :=
{ world := fun _ _ => Option.none, rotZ := fun _ v => v, bodyLoc := (0, 0, 0),
  bodyYaw := 0, gFrameCounter := 7 }

/-- A concrete hit whose struck component is untagged but whose actor tag
list is `[none, vehicle]` — the spec's labeling example. -/
def hitVehicleNone : HitInfo :=
{ impactPoint := (1, 2, 3), componentTag := ECityObjectLabel.none,
  actorTags := [ECityObjectLabel.none, ECityObjectLabel.vehicle] }

/-- A concrete tick context whose every ray cast strikes
`hitVehicleNone`. -/
def ctxHit : ScanContext :=
{ world := fun _ _ => some hitVehicleNone, rotZ := fun _ v => v,
  bodyLoc := (0, 0, 0), bodyYaw := 0, gFrameCounter := 7 }

/-- The source's rounding (`floor(x+1/2)` / `ceil(x-1/2)`) agrees with the
spec's round-half-away-from-zero on every input. -/
theorem roundHalfFromZero_eq_spec (x : ℚ) :
    roundHalfFromZero x = roundHalfAwayFromZeroSpec x := by
  unfold roundHalfFromZero roundHalfAwayFromZeroSpec
  split
  · rfl
  · rw [show x - 1 / 2 = -(-x + 1 / 2) by ring, Int.ceil_neg]

/-- For nonnegative arguments, `std::fmod` agrees with mathematical mod. -/
theorem fmodQ_eq_qmodSpec {x : ℚ} (hx : 0 ≤ x) : fmodQ x 360 = qmodSpec x 360 := by
  unfold fmodQ qmodSpec truncQ
  rw [if_pos (by positivity)]

/-- Mathematical mod by 360 lands in `[0, 360)`. -/
theorem qmodSpec_bounds (x : ℚ) : 0 ≤ qmodSpec x 360 ∧ qmodSpec x 360 < 360 := by
  unfold qmodSpec
  constructor
  · have := Int.sub_floor_div_mul_nonneg x (show (0 : ℚ) < 360 by norm_num)
    linarith [this]
  · have := Int.sub_floor_div_mul_lt x (show (0 : ℚ) < 360 by norm_num)
    linarith [this]

/-- Closed form of the laser table for `channels ≥ 2`: all entries are
finite, entry `i` being `upper - i * (upper - lower)/(channels - 1)`. -/
theorem createLasers_closedForm (n : ℕ) (U L : ℚ) (h2 : 2 ≤ n) :
    createLasers n U L =
      (List.range n).map
        (fun (i : ℕ) => FVal.fin (U - (i : ℚ) * ((U - L) / ((n : ℚ) - 1)))) := by
  have h1 : (1 : ℕ) ≤ n := le_trans one_le_two h2
  have hcast : ((n - 1 : ℕ) : ℚ) = (n : ℚ) - 1 := by
    push_cast [h1]
    ring
  have hne : ((n : ℚ) - 1) ≠ 0 := by
    have hn2 : (2 : ℚ) ≤ (n : ℚ) := by exact_mod_cast h2
    linarith
  unfold createLasers
  rw [hcast]
  apply List.map_congr_left
  intro i _
  simp [FVal.div, FVal.mul, FVal.sub, hne]

/-- Claim C3: the per-tick scan budget computed by `ReadPoints` equals the
spec's `round_half_away_from_zero(pointsPerSecond * dt / channels)` for
every configuration with at least one channel and every tick duration. -/
theorem c3_budget (description : LidarDescription) (deltaTime : ℚ)
    (_hch : 0 < description.channels) :
    pointsToScanWithOneLaser description deltaTime =
      roundHalfAwayFromZeroSpec
        ((description.pointsPerSecond : ℚ) * deltaTime / (description.channels : ℚ)) := by
  unfold pointsToScanWithOneLaser
  exact roundHalfFromZero_eq_spec _

/-- Claim C3 witness: the spec's example configuration
(`pointsPerSecond = 56000`, `channels = 32`, `dt = 1/20`) yields a budget
of 88 points per laser. -/
theorem c3_budget_witness :
    0 <
      ({ channels := 32, upperFovLimit := 10, lowerFovLimit := -30, range := 5000,
         pointsPerSecond := 56000, rotationFrequency := 10,
         showDebugPoints := false } : LidarDescription).channels ∧
    pointsToScanWithOneLaser
      { channels := 32, upperFovLimit := 10, lowerFovLimit := -30, range := 5000,
        pointsPerSecond := 56000, rotationFrequency := 10, showDebugPoints := false }
      (1 / 20) =
      roundHalfAwayFromZeroSpec (((56000 : ℕ) : ℚ) * (1 / 20) / ((32 : ℕ) : ℚ)) ∧
    pointsToScanWithOneLaser
      { channels := 32, upperFovLimit := 10, lowerFovLimit := -30, range := 5000,
        pointsPerSecond := 56000, rotationFrequency := 10, showDebugPoints := false }
      (1 / 20) = 88 :=
  ⟨by norm_num,
   c3_budget _ _ (by norm_num),
   by norm_num [pointsToScanWithOneLaser, roundHalfFromZero]⟩

/-- Claim C4: on a tick whose computed budget is `≤ 0`, `ReadPoints` logs
the diagnostic and returns with the measurement untouched — no ray casts,
no appended points, `horizontalAngle` and `frameNumber` keep their prior
values. -/
theorem c4_early_return (description : LidarDescription) (ctx : ScanContext)
    (m : FLidarMeasurement) (deltaTime : ℚ)
    (h : pointsToScanWithOneLaser description deltaTime ≤ 0) :
    readPoints description ctx m deltaTime = (m, true) := by
  unfold readPoints
  rw [if_pos h]

/-- Claim C4 witness: with `dt = 0` the budget rounds to 0 and the
measurement (angle 350, frame 3, one buffered point) passes through
unchanged, with the warning flag set. -/
theorem c4_early_return_witness :
    pointsToScanWithOneLaser
      { channels := 1, upperFovLimit := 10, lowerFovLimit := -30, range := 5000,
        pointsPerSecond := 5, rotationFrequency := 10, showDebugPoints := false }
      0 ≤ 0 ∧
    readPoints
      { channels := 1, upperFovLimit := 10, lowerFovLimit := -30, range := 5000,
        pointsPerSecond := 5, rotationFrequency := 10, showDebugPoints := false }
      { world := fun _ _ => Option.none, rotZ := fun _ v => v, bodyLoc := (0, 0, 0),
        bodyYaw := 0, gFrameCounter := 7 }
      { horizontalAngle := 350, frameNumber := 3,
        points := [(0, { xyz := (1, 2, 3), label := ECityObjectLabel.vehicle })] }
      0 =
      ({ horizontalAngle := 350, frameNumber := 3,
         points := [(0, { xyz := (1, 2, 3), label := ECityObjectLabel.vehicle })] },
       true) :=
  ⟨by norm_num [pointsToScanWithOneLaser, roundHalfFromZero],
   c4_early_return _ _ _ _ (by norm_num [pointsToScanWithOneLaser, roundHalfFromZero])⟩

/-- Claim C2 (code bug): `CreateLasers` is not special-cased for
`channels == 1`; it divides by `float(0)`, and the single table entry
`upper - 0 * (±∞ or NaN)` is NaN for every pair of FOV limits — never
`[upperFovLimit]`. -/
theorem c2_single_channel_nan (U L : ℚ) : createLasers 1 U L = [FVal.nan] := by
  by_cases h : U - L = 0
  · simp [createLasers, List.range_succ, FVal.div, FVal.mul, FVal.sub, h]
  · by_cases h2 : 0 < U - L <;>
      simp [createLasers, List.range_succ, FVal.div, FVal.mul, FVal.sub, h, h2]

/-- Claim C1 counterexample: with `channels = 2` and
`lowerFovLimit = upperFovLimit = 5` (allowed by the claim's
`lower ≤ upper`), the table is `[5, 5]`, which is not strictly
decreasing. -/
theorem c1_counterexample :
    createLasers 2 5 5 = [FVal.fin 5, FVal.fin 5] ∧
    ¬ StrictlyDecreasingF (createLasers 2 5 5) := by
  have he : createLasers 2 5 5 = [FVal.fin 5, FVal.fin 5] := by
    norm_num [createLasers, List.range_succ, FVal.sub, FVal.mul, FVal.div]
  refine ⟨he, fun hsd => ?_⟩
  have h5 := hsd 0 5 5 (by rw [he]; rfl) (by rw [he]; rfl)
  exact absurd h5 (lt_irrefl 5)

/-- Claim C1 (amended): for `channels ≥ 2` and
`lowerFovLimit ≤ upperFovLimit` the table has `channels` entries, entry 0
is the upper limit, the last entry is the lower limit, consecutive entries
differ by the constant step `(upper - lower)/(channels - 1)`, and the
angles are strictly decreasing whenever `lowerFovLimit < upperFovLimit`
(when the limits coincide all entries are equal). -/
theorem c1_angle_table (n : ℕ) (U L : ℚ) (h2 : 2 ≤ n) (_hLU : L ≤ U) :
    (createLasers n U L).length = n ∧
    (createLasers n U L)[0]? = some (FVal.fin U) ∧
    (createLasers n U L)[n - 1]? = some (FVal.fin L) ∧
    EvenlySpacedF ((U - L) / ((n : ℚ) - 1)) (createLasers n U L) ∧
    (L < U → StrictlyDecreasingF (createLasers n U L)) := by
  have h0 : 0 < n := lt_of_lt_of_le two_pos h2
  have hcf := createLasers_closedForm n U L h2
  have hpos : (0 : ℚ) < (n : ℚ) - 1 := by
    have hn2 : (2 : ℚ) ≤ (n : ℚ) := by exact_mod_cast h2
    linarith
  have hne : ((n : ℚ) - 1) ≠ 0 := ne_of_gt hpos
  have hlen : (createLasers n U L).length = n := by
    rw [hcf]
    simp
  have helem : ∀ i : ℕ, i < n → (createLasers n U L)[i]? =
      some (FVal.fin (U - (i : ℚ) * ((U - L) / ((n : ℚ) - 1)))) := by
    intro i hi
    rw [hcf, List.getElem?_map, List.getElem?_range hi]
    rfl
  have hval : ∀ i : ℕ, ∀ x : ℚ,
      (createLasers n U L)[i]? = some (FVal.fin x) →
        i < n ∧ x = U - (i : ℚ) * ((U - L) / ((n : ℚ) - 1)) := by
    intro i x hx
    by_cases hi : i < n
    · rw [helem i hi] at hx
      simp only [Option.some.injEq, FVal.fin.injEq] at hx
      exact ⟨hi, hx.symm⟩
    · rw [List.getElem?_eq_none (by omega : (createLasers n U L).length ≤ i)] at hx
      exact absurd hx (by simp)
  refine ⟨hlen, ?_, ?_, ?_, ?_⟩
  · rw [helem 0 h0]
    norm_num
  · rw [helem (n - 1) (by omega)]
    have hcast : ((n - 1 : ℕ) : ℚ) = (n : ℚ) - 1 := by
      push_cast [Nat.one_le_iff_ne_zero.mpr (by omega : n ≠ 0)]
      ring
    have hv : U - ((n - 1 : ℕ) : ℚ) * ((U - L) / ((n : ℚ) - 1)) = L := by
      rw [hcast]
      field_simp
    rw [hv]
  · intro i x y hx hy
    obtain ⟨hi, hxv⟩ := hval i x hx
    obtain ⟨hi1, hyv⟩ := hval (i + 1) y hy
    subst hxv hyv
    push_cast
    ring
  · intro hlt i x y hx hy
    obtain ⟨hi, hxv⟩ := hval i x hx
    obtain ⟨hi1, hyv⟩ := hval (i + 1) y hy
    subst hxv hyv
    have hstep : (0 : ℚ) < (U - L) / ((n : ℚ) - 1) := div_pos (by linarith) hpos
    have hcast1 : ((i + 1 : ℕ) : ℚ) = (i : ℚ) + 1 := by push_cast; ring
    rw [hcast1]
    nlinarith [hstep]

/-- Claim C1 witness: the table for 4 channels between −30 and 10 starts
at 10, ends at −30, is evenly spaced with step 40/3 and strictly
decreases. -/
theorem c1_angle_table_witness :
    2 ≤ 4 ∧ (-30 : ℚ) ≤ 10 ∧
    ((createLasers 4 10 (-30)).length = 4 ∧
     (createLasers 4 10 (-30))[0]? = some (FVal.fin 10) ∧
     (createLasers 4 10 (-30))[4 - 1]? = some (FVal.fin (-30)) ∧
     EvenlySpacedF ((10 - (-30)) / ((4 : ℚ) - 1)) (createLasers 4 10 (-30)) ∧
     ((-30 : ℚ) < 10 → StrictlyDecreasingF (createLasers 4 10 (-30)))) :=
  ⟨by norm_num, by norm_num, c1_angle_table 4 10 (-30) (by norm_num) (by norm_num)⟩

/-- Claim C5 counterexample: with `rotationFrequency = -1/360`
(no validation forbids a negative value), `channels = 1`,
`pointsPerSecond = 100`, `dt = 1`, a scanning tick starting at angle 0
sweeps −1 degree and `std::fmod` stores −1 — outside `[0, 360)` and not
equal to the mathematical `(0 + (−1)) mod 360 = 359`. -/
theorem c5_counterexample :
    0 < pointsToScanWithOneLaser
      { channels := 1, upperFovLimit := 10, lowerFovLimit := -30, range := 5000,
        pointsPerSecond := 100, rotationFrequency := -1 / 360,
        showDebugPoints := false } 1 ∧
    (readPoints
      { channels := 1, upperFovLimit := 10, lowerFovLimit := -30, range := 5000,
        pointsPerSecond := 100, rotationFrequency := -1 / 360,
        showDebugPoints := false }
      ctxNone { horizontalAngle := 0, frameNumber := 0, points := [] }
      1).1.horizontalAngle = -1 ∧
    ¬ (0 ≤ (readPoints
      { channels := 1, upperFovLimit := 10, lowerFovLimit := -30, range := 5000,
        pointsPerSecond := 100, rotationFrequency := -1 / 360,
        showDebugPoints := false }
      ctxNone { horizontalAngle := 0, frameNumber := 0, points := [] }
      1).1.horizontalAngle) ∧
    qmodSpec ((0 : ℚ) + (-1 / 360) * 360 * 1) 360 = 359 := by
  have hb : pointsToScanWithOneLaser
      { channels := 1, upperFovLimit := 10, lowerFovLimit := -30, range := 5000,
        pointsPerSecond := 100, rotationFrequency := -1 / 360,
        showDebugPoints := false } 1 = 100 := by
    norm_num [pointsToScanWithOneLaser, roundHalfFromZero]
  have ha : (readPoints
      { channels := 1, upperFovLimit := 10, lowerFovLimit := -30, range := 5000,
        pointsPerSecond := 100, rotationFrequency := -1 / 360,
        showDebugPoints := false }
      ctxNone { horizontalAngle := 0, frameNumber := 0, points := [] }
      1).1.horizontalAngle = -1 := by
    rw [readPoints, if_neg (by rw [hb]; norm_num)]
    norm_num [fmodQ, truncQ]
  refine ⟨by rw [hb]; norm_num, ha, by rw [ha]; norm_num, by norm_num [qmodSpec]⟩

/-- Claim C5 (amended): on every scanning tick whose swept total
`currentHorizontalAngle + rotationFrequency * 360 * dt` is nonnegative
(in particular whenever the rotation frequency and the prior angle are
nonnegative), the stored `horizontalAngle` equals the mathematical
`(current + sweep) mod 360` and lies in `[0, 360)`; for negative swept
totals `std::fmod` instead produces a negative value. -/
theorem c5_wraparound (description : LidarDescription) (ctx : ScanContext)
    (m : FLidarMeasurement) (deltaTime : ℚ)
    (hbudget : 0 < pointsToScanWithOneLaser description deltaTime)
    (hnn : 0 ≤ m.horizontalAngle + description.rotationFrequency * 360 * deltaTime) :
    (readPoints description ctx m deltaTime).1.horizontalAngle =
      qmodSpec (m.horizontalAngle + description.rotationFrequency * 360 * deltaTime)
        360 ∧
    0 ≤ (readPoints description ctx m deltaTime).1.horizontalAngle ∧
    (readPoints description ctx m deltaTime).1.horizontalAngle < 360 := by
  have hr : (readPoints description ctx m deltaTime).1.horizontalAngle =
      fmodQ (m.horizontalAngle + description.rotationFrequency * 360 * deltaTime)
        360 := by
    rw [readPoints, if_neg (not_le.mpr hbudget)]
  rw [hr, fmodQ_eq_qmodSpec hnn]
  exact ⟨rfl, (qmodSpec_bounds _).1, (qmodSpec_bounds _).2⟩

/-- Claim C5 witness: starting at 350 degrees with a 30-degree sweep
(`rotationFrequency = 1/12`, `dt = 1`), the stored angle is the
mathematical `380 mod 360`, lies in `[0, 360)`, and evaluates to 20. -/
theorem c5_wraparound_witness :
    0 < pointsToScanWithOneLaser
      { channels := 1, upperFovLimit := 10, lowerFovLimit := -30, range := 5000,
        pointsPerSecond := 1, rotationFrequency := 1 / 12,
        showDebugPoints := false } 1 ∧
    0 ≤ (350 : ℚ) + (1 / 12) * 360 * 1 ∧
    ((readPoints
      { channels := 1, upperFovLimit := 10, lowerFovLimit := -30, range := 5000,
        pointsPerSecond := 1, rotationFrequency := 1 / 12,
        showDebugPoints := false }
      ctxNone { horizontalAngle := 350, frameNumber := 0, points := [] }
      1).1.horizontalAngle =
      qmodSpec ((350 : ℚ) + (1 / 12) * 360 * 1) 360 ∧
     0 ≤ (readPoints
      { channels := 1, upperFovLimit := 10, lowerFovLimit := -30, range := 5000,
        pointsPerSecond := 1, rotationFrequency := 1 / 12,
        showDebugPoints := false }
      ctxNone { horizontalAngle := 350, frameNumber := 0, points := [] }
      1).1.horizontalAngle ∧
     (readPoints
      { channels := 1, upperFovLimit := 10, lowerFovLimit := -30, range := 5000,
        pointsPerSecond := 1, rotationFrequency := 1 / 12,
        showDebugPoints := false }
      ctxNone { horizontalAngle := 350, frameNumber := 0, points := [] }
      1).1.horizontalAngle < 360) ∧
    qmodSpec ((350 : ℚ) + (1 / 12) * 360 * 1) 360 = 20 :=
  ⟨by norm_num [pointsToScanWithOneLaser, roundHalfFromZero],
   by norm_num,
   c5_wraparound _ _ _ _ (by norm_num [pointsToScanWithOneLaser, roundHalfFromZero])
     (by norm_num),
   by norm_num [qmodSpec]⟩

/-- The tag loop of `ShootLaser` returns the head of the non-none tags,
defaulting to none. -/
theorem firstNonNone_eq (l : List ECityObjectLabel) :
    firstNonNone l =
      (l.filter (fun t => t ≠ ECityObjectLabel.none)).headD ECityObjectLabel.none := by
  induction l with
  | nil => rfl
  | cons t ts ih =>
    by_cases h : t = ECityObjectLabel.none
    · simp [firstNonNone, h, ih]
    · simp [firstNonNone, h]

/-- Claim C7: on a hit, `ShootLaser` returns the point built from the hit,
whose label is the struck component's tag when that tag is non-none, and
otherwise the first non-none tag of the struck actor (none when there is
none). -/
theorem c7_label (ctx : ScanContext) (channel : ℕ) (angle : ℚ) (hitInfo : HitInfo)
    (hw : ctx.world channel angle = some hitInfo) :
    shootLaser ctx channel angle = some (pointOfHit ctx hitInfo) ∧
    (hitInfo.componentTag ≠ ECityObjectLabel.none →
      (pointOfHit ctx hitInfo).label = hitInfo.componentTag) ∧
    (hitInfo.componentTag = ECityObjectLabel.none →
      (pointOfHit ctx hitInfo).label =
        (hitInfo.actorTags.filter (fun t => t ≠ ECityObjectLabel.none)).headD
          ECityObjectLabel.none) := by
  refine ⟨?_, ?_, ?_⟩
  · unfold shootLaser
    rw [hw]
    rfl
  · intro h
    simp [pointOfHit, h]
  · intro h
    simp [pointOfHit, h, firstNonNone_eq]

/-- Claim C7 witness: the spec's example — component tag none, actor tags
`[none, vehicle]` — yields the label `vehicle`. -/
theorem c7_label_witness :
    ctxHit.world 0 0 = some hitVehicleNone ∧
    (shootLaser ctxHit 0 0 = some (pointOfHit ctxHit hitVehicleNone) ∧
     (hitVehicleNone.componentTag ≠ ECityObjectLabel.none →
       (pointOfHit ctxHit hitVehicleNone).label = hitVehicleNone.componentTag) ∧
     (hitVehicleNone.componentTag = ECityObjectLabel.none →
       (pointOfHit ctxHit hitVehicleNone).label =
         (hitVehicleNone.actorTags.filter
           (fun t => t ≠ ECityObjectLabel.none)).headD ECityObjectLabel.none)) ∧
    (pointOfHit ctxHit hitVehicleNone).label = ECityObjectLabel.vehicle :=
  ⟨rfl,
   c7_label ctxHit 0 0 hitVehicleNone rfl,
   by simp [pointOfHit, hitVehicleNone, ctxHit, firstNonNone]⟩

/-- The sweep writes at most one point per `(channel, sampleIndex)` pair. -/
theorem sweepPoints_length_le (ctx : ScanContext) (channelCount n : ℕ) (cur step : ℚ) :
    (sweepPoints ctx channelCount n cur step).length ≤ channelCount * n := by
  unfold sweepPoints
  rw [List.length_flatMap]
  have hbound : ∀ x ∈ (List.range channelCount).map (fun (c : ℕ) =>
      ((List.range n).filterMap (fun (i : ℕ) =>
        (shootLaser ctx c (cur + step * (i : ℚ))).map (fun p => (c, p)))).length),
      x ≤ n := by
    intro x hx
    obtain ⟨c, _, hc⟩ := List.mem_map.mp hx
    calc x = _ := hc.symm
    _ ≤ (List.range n).length := List.length_filterMap_le _ _
    _ = n := List.length_range n
  calc ((List.range channelCount).map _).sum
      ≤ ((List.range channelCount).map (fun (c : ℕ) =>
          ((List.range n).filterMap (fun (i : ℕ) =>
            (shootLaser ctx c (cur + step * (i : ℚ))).map
              (fun p => (c, p)))).length)).length * n :=
        List.sum_le_card_nsmul _ n hbound
    _ = channelCount * n := by simp

/-- Every buffered entry of the sweep comes from a cast that hit: its
channel, a sample index below the budget, and the hit it was built from
can be recovered. -/
theorem sweepPoints_mem (ctx : ScanContext) (channelCount n : ℕ) (cur step : ℚ)
    (cp : ℕ × Point) (hmem : cp ∈ sweepPoints ctx channelCount n cur step) :
    cp.1 < channelCount ∧
    ∃ i : ℕ, i < n ∧ ∃ hitInfo : HitInfo,
      ctx.world cp.1 (cur + step * (i : ℚ)) = some hitInfo ∧
      cp.2 = pointOfHit ctx hitInfo := by
  unfold sweepPoints at hmem
  obtain ⟨c, hc, hcp⟩ := List.mem_flatMap.mp hmem
  obtain ⟨i, hi, hsome⟩ := List.mem_filterMap.mp hcp
  obtain ⟨p, hp, hcpp⟩ := Option.map_eq_some'.mp hsome
  obtain ⟨hitInfo, hhit, hph⟩ := Option.map_eq_some'.mp hp
  have hc1 : cp.1 = c := by rw [← hcpp]
  have hc2 : cp.2 = p := by rw [← hcpp]
  subst hc1
  refine ⟨List.mem_range.mp hc, i, List.mem_range.mp hi, hitInfo, hhit, ?_⟩
  rw [hc2, ← hph]

/-- Claim C6: on every scanning tick, the buffer holds at most
`channels * pointsPerLaser` entries, and every entry was produced by a ray
cast that returned a hit — misses contribute nothing. -/
theorem c6_buffer (description : LidarDescription) (ctx : ScanContext)
    (m : FLidarMeasurement) (deltaTime : ℚ)
    (hbudget : 0 < pointsToScanWithOneLaser description deltaTime) :
    (readPoints description ctx m deltaTime).1.points.length ≤
      description.channels * (pointsToScanWithOneLaser description deltaTime).toNat ∧
    (∀ cp ∈ (readPoints description ctx m deltaTime).1.points,
      cp.1 < description.channels ∧
      ∃ i : ℕ, i < (pointsToScanWithOneLaser description deltaTime).toNat ∧
        ∃ hitInfo : HitInfo,
          ctx.world cp.1
            (m.horizontalAngle +
              description.rotationFrequency * 360 * deltaTime /
                (((pointsToScanWithOneLaser description deltaTime).toNat : ℚ)) *
                (i : ℚ)) = some hitInfo ∧
          cp.2 = pointOfHit ctx hitInfo) := by
  have hr : (readPoints description ctx m deltaTime).1.points =
      sweepPoints ctx description.channels
        (pointsToScanWithOneLaser description deltaTime).toNat m.horizontalAngle
        (description.rotationFrequency * 360 * deltaTime /
          (((pointsToScanWithOneLaser description deltaTime).toNat : ℚ))) := by
    rw [readPoints, if_neg (not_le.mpr hbudget)]
  rw [hr]
  exact ⟨sweepPoints_length_le _ _ _ _ _, fun cp hcp => sweepPoints_mem _ _ _ _ _ cp hcp⟩

/-- Claim C6 witness: one channel, budget 2, every cast hitting — the
buffer length (2) respects the bound, and both entries trace back to
hits. -/
theorem c6_buffer_witness :
    0 < pointsToScanWithOneLaser
      { channels := 1, upperFovLimit := 10, lowerFovLimit := -30, range := 5000,
        pointsPerSecond := 2, rotationFrequency := 0,
        showDebugPoints := false } 1 ∧
    ((readPoints
      { channels := 1, upperFovLimit := 10, lowerFovLimit := -30, range := 5000,
        pointsPerSecond := 2, rotationFrequency := 0, showDebugPoints := false }
      ctxHit { horizontalAngle := 0, frameNumber := 0, points := [] }
      1).1.points.length ≤
      1 * (pointsToScanWithOneLaser
        { channels := 1, upperFovLimit := 10, lowerFovLimit := -30, range := 5000,
          pointsPerSecond := 2, rotationFrequency := 0,
          showDebugPoints := false } 1).toNat) :=
  ⟨by norm_num [pointsToScanWithOneLaser, roundHalfFromZero],
   (c6_buffer
     { channels := 1, upperFovLimit := 10, lowerFovLimit := -30, range := 5000,
       pointsPerSecond := 2, rotationFrequency := 0, showDebugPoints := false }
     ctxHit { horizontalAngle := 0, frameNumber := 0, points := [] } 1
     (by norm_num [pointsToScanWithOneLaser, roundHalfFromZero])).1⟩

/-- Claim C9 counterexample: a tick with `dt = 0` computes budget 0 and
scans nothing, yet `Tick` still hands the measurement's buffer — holding
the previous tick's point — to the sink: the buffer is retained across
ticks. -/
theorem c9_counterexample :
    pointsToScanWithOneLaser
      { channels := 1, upperFovLimit := 10, lowerFovLimit := -30, range := 5000,
        pointsPerSecond := 5, rotationFrequency := 10,
        showDebugPoints := false } 0 ≤ 0 ∧
    (tick
      { channels := 1, upperFovLimit := 10, lowerFovLimit := -30, range := 5000,
        pointsPerSecond := 5, rotationFrequency := 10, showDebugPoints := false }
      ctxNone
      { horizontalAngle := 20, frameNumber := 3,
        points := [(0, { xyz := (1, 2, 3), label := ECityObjectLabel.vehicle })] }
      0).2 =
      [(0, { xyz := (1, 2, 3), label := ECityObjectLabel.vehicle })] ∧
    ([(0, { xyz := (1, 2, 3), label := ECityObjectLabel.vehicle })] :
      List (ℕ × Point)) ≠ [] := by
  have hb : pointsToScanWithOneLaser
      { channels := 1, upperFovLimit := 10, lowerFovLimit := -30, range := 5000,
        pointsPerSecond := 5, rotationFrequency := 10,
        showDebugPoints := false } 0 ≤ 0 := by
    norm_num [pointsToScanWithOneLaser, roundHalfFromZero]
  refine ⟨hb, ?_, by simp⟩
  rw [tick, readPoints, if_pos hb]

/-- Claim C9 (amended): on every scanning tick the buffer is rebuilt from
scratch — its contents do not depend on the previously buffered points —
and `Tick` hands exactly the fresh measurement's buffer to the sink.
(On non-scanning ticks the old buffer is retained and re-delivered, per
the counterexample.) -/
theorem c9_no_retention (description : LidarDescription) (ctx : ScanContext)
    (deltaTime : ℚ) (m m2 : FLidarMeasurement)
    (hbudget : 0 < pointsToScanWithOneLaser description deltaTime)
    (hangle : m.horizontalAngle = m2.horizontalAngle) :
    (readPoints description ctx m deltaTime).1.points =
      (readPoints description ctx m2 deltaTime).1.points ∧
    (tick description ctx m deltaTime).2 =
      (readPoints description ctx m deltaTime).1.points := by
  constructor
  · rw [readPoints, readPoints, if_neg (not_le.mpr hbudget),
      if_neg (not_le.mpr hbudget)]
    simp only [hangle]
  · rw [tick]

/-- Claim C9 witness: two measurements at the same angle but with
different buffered points produce identical fresh buffers on a scanning
tick, and the handoff is that fresh buffer. -/
theorem c9_no_retention_witness :
    0 < pointsToScanWithOneLaser
      { channels := 1, upperFovLimit := 10, lowerFovLimit := -30, range := 5000,
        pointsPerSecond := 2, rotationFrequency := 0,
        showDebugPoints := false } 1 ∧
    ((readPoints
      { channels := 1, upperFovLimit := 10, lowerFovLimit := -30, range := 5000,
        pointsPerSecond := 2, rotationFrequency := 0, showDebugPoints := false }
      ctxHit
      { horizontalAngle := 0, frameNumber := 3,
        points := [(0, { xyz := (9, 9, 9), label := ECityObjectLabel.wall })] }
      1).1.points =
      (readPoints
        { channels := 1, upperFovLimit := 10, lowerFovLimit := -30, range := 5000,
          pointsPerSecond := 2, rotationFrequency := 0, showDebugPoints := false }
        ctxHit { horizontalAngle := 0, frameNumber := 0, points := [] }
        1).1.points ∧
     (tick
       { channels := 1, upperFovLimit := 10, lowerFovLimit := -30, range := 5000,
         pointsPerSecond := 2, rotationFrequency := 0, showDebugPoints := false }
       ctxHit
       { horizontalAngle := 0, frameNumber := 3,
         points := [(0, { xyz := (9, 9, 9), label := ECityObjectLabel.wall })] }
       1).2 =
       (readPoints
         { channels := 1, upperFovLimit := 10, lowerFovLimit := -30, range := 5000,
           pointsPerSecond := 2, rotationFrequency := 0, showDebugPoints := false }
         ctxHit
         { horizontalAngle := 0, frameNumber := 3,
           points := [(0, { xyz := (9, 9, 9), label := ECityObjectLabel.wall })] }
         1).1.points) :=
  ⟨by norm_num [pointsToScanWithOneLaser, roundHalfFromZero],
   c9_no_retention _ _ _ _ _
     (by norm_num [pointsToScanWithOneLaser, roundHalfFromZero]) rfl⟩

/-- Claim C8 counterexample: a configuration with inverted FOV limits
(`lower = 10 > upper = 0`), negative range and zero `pointsPerSecond` —
invalid on three counts per the claim — is accepted by `Set`, which builds
a (rising) two-entry table. -/
theorem c8_counterexample :
    (lidarSet
      { channels := 2, upperFovLimit := 0, lowerFovLimit := 10, range := -1,
        pointsPerSecond := 0, rotationFrequency := 10, showDebugPoints := false }
      { description := Option.none, laserAngles := [],
        measurement := FLidarMeasurement.initial }).isSome = true ∧
    createLasers 2 0 10 = [FVal.fin 0, FVal.fin 10] := by
  constructor
  · rfl
  · norm_num [createLasers, List.range_succ, FVal.sub, FVal.mul, FVal.div]

/-- Claim C8 (amended): the only configuration check `Set` performs is
`CreateLasers`' `check(NumberOfLasers > 0u)` assertion: `Set` succeeds
exactly when `channels ≠ 0`, and on success the table has exactly
`channels` entries — so `channels == 0` never yields an empty table, while
inverted FOV limits and non-positive range or `pointsPerSecond` are
accepted unvalidated. -/
theorem c8_validation (description : LidarDescription) (st : LidarState) :
    ((lidarSet description st).isSome ↔ description.channels ≠ 0) ∧
    (∀ st2 : LidarState, lidarSet description st = some st2 →
      st2.laserAngles.length = description.channels ∧ st2.laserAngles ≠ []) := by
  constructor
  · unfold lidarSet
    by_cases h : 0 < description.channels
    · rw [if_pos h]
      simp
      omega
    · rw [if_neg h]
      simp
      omega
  · intro st2 hst2
    unfold lidarSet at hst2
    by_cases h : 0 < description.channels
    · rw [if_pos h] at hst2
      have hla : st2.laserAngles =
          createLasers description.channels description.upperFovLimit
            description.lowerFovLimit := by
        rw [← Option.some.inj hst2]
      have hlen : st2.laserAngles.length = description.channels := by
        rw [hla]
        unfold createLasers
        simp
      refine ⟨hlen, ?_⟩
      intro hnil
      rw [hnil] at hlen
      simp at hlen
      omega
    · rw [if_neg h] at hst2
      exact absurd hst2 (by simp)

/-- Claim C8 witness: applying `Set` with one channel succeeds and its
one-entry table is nonempty. -/
theorem c8_validation_witness :
    ({ description :=
         some { channels := 1, upperFovLimit := 10, lowerFovLimit := -30,
                range := 5000, pointsPerSecond := 56000, rotationFrequency := 10,
                showDebugPoints := false },
       laserAngles := createLasers 1 10 (-30),
       measurement := FLidarMeasurement.initial } : LidarState).laserAngles.length =
      ({ channels := 1, upperFovLimit := 10, lowerFovLimit := -30, range := 5000,
         pointsPerSecond := 56000, rotationFrequency := 10,
         showDebugPoints := false } : LidarDescription).channels ∧
    ({ description :=
         some { channels := 1, upperFovLimit := 10, lowerFovLimit := -30,
                range := 5000, pointsPerSecond := 56000, rotationFrequency := 10,
                showDebugPoints := false },
       laserAngles := createLasers 1 10 (-30),
       measurement := FLidarMeasurement.initial } : LidarState).laserAngles ≠ [] :=
  (c8_validation
    { channels := 1, upperFovLimit := 10, lowerFovLimit := -30, range := 5000,
      pointsPerSecond := 56000, rotationFrequency := 10, showDebugPoints := false }
    { description := Option.none, laserAngles := [],
      measurement := FLidarMeasurement.initial }).2 _ rfl

/-- Claim C10: whenever `Set` succeeds, the measurement is freshly
constructed — `horizontalAngle` and `frameNumber` return to their initial
values and previously buffered points are discarded, regardless of the
prior state. -/
theorem c10_reset (description : LidarDescription) (st st2 : LidarState)
    (h : lidarSet description st = some st2) :
    st2.measurement.horizontalAngle = 0 ∧ st2.measurement.frameNumber = 0 ∧
    st2.measurement.points = [] := by
  unfold lidarSet at h
  by_cases hch : 0 < description.channels
  · rw [if_pos hch] at h
    have hm : st2.measurement = FLidarMeasurement.initial := by
      rw [← Option.some.inj h]
    rw [hm]
    exact ⟨rfl, rfl, rfl⟩
  · rw [if_neg hch] at h
    exact absurd h (by simp)

/-- Claim C10 witness: reconfiguring from a state mid-sweep (angle 123,
frame 9, one buffered point) yields the initial measurement. -/
theorem c10_reset_witness :
    ({ description :=
         some { channels := 1, upperFovLimit := 10, lowerFovLimit := -30,
                range := 5000, pointsPerSecond := 56000, rotationFrequency := 10,
                showDebugPoints := false },
       laserAngles := createLasers 1 10 (-30),
       measurement := FLidarMeasurement.initial } : LidarState).measurement.horizontalAngle = 0 ∧
    ({ description :=
         some { channels := 1, upperFovLimit := 10, lowerFovLimit := -30,
                range := 5000, pointsPerSecond := 56000, rotationFrequency := 10,
                showDebugPoints := false },
       laserAngles := createLasers 1 10 (-30),
       measurement := FLidarMeasurement.initial } : LidarState).measurement.frameNumber = 0 ∧
    ({ description :=
         some { channels := 1, upperFovLimit := 10, lowerFovLimit := -30,
                range := 5000, pointsPerSecond := 56000, rotationFrequency := 10,
                showDebugPoints := false },
       laserAngles := createLasers 1 10 (-30),
       measurement := FLidarMeasurement.initial } : LidarState).measurement.points = [] :=
  c10_reset
    { channels := 1, upperFovLimit := 10, lowerFovLimit := -30, range := 5000,
      pointsPerSecond := 56000, rotationFrequency := 10, showDebugPoints := false }
    { description := Option.none, laserAngles := [],
      measurement :=
        { horizontalAngle := 123, frameNumber := 9,
          points := [(0, { xyz := (1, 2, 3), label := ECityObjectLabel.vehicle })] } }
    _ rfl

end CarlaLidar
